import Mathlib

/-!
Verification of the PDF signing service (`server.js`) against its
natural-language specification.

The JavaScript source is shallowly embedded: strings become `List Char`,
mutable cursor arithmetic becomes explicit state threading, thrown
exceptions become `Except`, and the external collaborators (file system,
pdf-lib image embedding, the GCS storage backend) become explicit
function parameters in an `Env` record.  Draw calls on a PDF page are
recorded as a trace of `DrawOp` values.
-/

/-- Fonts, as the embedding sees them.  `standard` is a pdf-lib standard
font (the code only ever embeds `StandardFonts.Helvetica`); `embedded`
would be a custom TrueType font embedded from raw bytes (the code's
`pdfDoc.embedFont(fontBytes)` call is commented out, so no `embedded`
font is ever constructed by the embedded code). -/
inductive Font where
  | standard (name : List Char)
  | embedded (bytes : List Nat)
  deriving DecidableEq

/-- One drawing operation performed on a PDF page: `page.drawText` or
`page.drawImage` in the source. -/
inductive DrawOp where
  | text (s : List Char) (x y : Int) (size : Nat) (font : Font)
  | image (x y width height : Int)
  deriving DecidableEq

/-- The embedded Helvetica font (`StandardFonts.Helvetica`, server.js line 360/494). -/
def helveticaFont : Font := Font.standard "Helvetica".toList

/-- Errors thrown inside `addSignatureToPage` (server.js lines 78-176).
In the source they are all re-thrown as
`Fehler beim Einfuegen der Unterschrift: <message>`; the constructors
record which underlying operation threw. -/
inductive CompError where
  | fontReadFailed (fontPath : List Char)
  | invalidSignatureData
  | pngEmbedFailed
  deriving DecidableEq

/-- Errors thrown by `downloadPdfFromGcs` (server.js lines 636-678). -/
inductive GcsDownloadError where
  | invalidGcsUriFormat
  | invalidPublicUrlFormat
  | invalidBucketInPublicUrl
  | untrustedBucket
  | unsupportedFormat
  | backendFailed
  deriving DecidableEq

/-- The two error constructors by which `downloadPdfFromGcs` rejects a
location whose bucket differs from the configured bucket: line 653
(`Invalid bucket in public URL.`) and line 662
(`Cannot download from bucket ..., expected ...`). -/
def GcsDownloadError.isUntrustedBucket : GcsDownloadError → Bool
  | GcsDownloadError.invalidBucketInPublicUrl => true
  | GcsDownloadError.untrustedBucket => true
  | _ => false

/-- The `gs://` scheme literal (server.js lines 640-641, 709). -/
def schemeGs : List Char := "gs://".toList

/-- The public-URL scheme literal `https://storage.googleapis.com/`
(server.js lines 645-646, 704). -/
def schemePublic : List Char := "https://storage.googleapis.com/".toList

/-- `chopLead pat s` models `s.startsWith(pat)` together with removal of
the matched head: `some rest` when `s = pat ++ rest`, else `none`. -/
def chopLead : List Char → List Char → Option (List Char)
  | [], s => some s
  | _ :: _, [] => none
  | c :: pat, d :: s => if c = d then chopLead pat s else none

/-- Splits a character list at its first `'/'`:
`some (before, after)` when a `'/'` occurs, else `none`. -/
def splitAtFirstSlash : List Char → Option (List Char × List Char)
  | [] => none
  | c :: rest =>
    if c = '/' then some ([], rest)
    else
      match splitAtFirstSlash rest with
      | some (a, b) => some (c :: a, b)
      | none => none

/-- JavaScript regular-expression line terminators, which `.` does not
match in the source's (non-multiline, non-dotall) regexes. -/
def isJsLineTerminator (c : Char) : Bool :=
  c = Char.ofNat 10 || c = Char.ofNat 13 || c = Char.ofNat 0x2028 || c = Char.ofNat 0x2029

/-- Embedding of the anchored regex match
`gcsPathOrUrl.match(/^gs:\/\/([^\/]+)\/(.+)$/)` (server.js line 641):
group 1 is the maximal non-empty run of non-slash characters after the
scheme, group 2 the non-empty remainder after the following slash, which
may contain further slashes but no line terminator. -/
def matchGsUri (s : List Char) : Option (List Char × List Char) :=
  match chopLead schemeGs s with
  | none => none
  | some rest =>
    match splitAtFirstSlash rest with
    | none => none
    | some (b, p) =>
      if b = [] then none
      else if p = [] then none
      else if p.any isJsLineTerminator then none
      else some (b, p)

/-- Embedding of the anchored regex match
`gcsPathOrUrl.match(/^https:\/\/storage\.googleapis\.com\/([^\/]+)\/(.+)$/)`
(server.js line 646). -/
def matchPublicUrl (s : List Char) : Option (List Char × List Char) :=
  match chopLead schemePublic s with
  | none => none
  | some rest =>
    match splitAtFirstSlash rest with
    | none => none
    | some (b, p) =>
      if b = [] then none
      else if p = [] then none
      else if p.any isJsLineTerminator then none
      else some (b, p)

/-- The location-parsing portion of `downloadPdfFromGcs`
(server.js lines 638-657): extracts `{bucket, path}` from a `gs://` URI
or a `https://storage.googleapis.com/` public URL, rejecting anything
else.  The bucket-identity checks of lines 651-654 and 660-663 are not
part of parsing and live in `downloadPdfFromGcs` below. -/
def parseLocation (loc : List Char) : Except GcsDownloadError (List Char × List Char) :=
  match chopLead schemeGs loc with
  | some _ =>
    match matchGsUri loc with
    | none => Except.error GcsDownloadError.invalidGcsUriFormat
    | some bp => Except.ok bp
  | none =>
    match chopLead schemePublic loc with
    | some _ =>
      match matchPublicUrl loc with
      | none => Except.error GcsDownloadError.invalidPublicUrlFormat
      | some bp => Except.ok bp
    | none => Except.error GcsDownloadError.unsupportedFormat

/-- External collaborators and configuration, passed explicitly:
`bucketName` is `BUCKET_NAME` (`GCP_BUCKET_NAME`), `makePublic` is
`MAKE_PUBLIC`, `today` is `new Date().toLocaleDateString('de-DE')`,
`readFile` is `fs.readFile` restricted to the font assets (`none`
models a thrown read error), `embedPng` is the composition of Node's
base64 decoding with pdf-lib's `embedPng` (`none` models a throw on
undecodable data), and `backendDownload` is
`storage.bucket(b).file(p).download()` (`none` models a storage error). -/
structure Env where
  bucketName : List Char
  makePublic : Bool
  today : List Char
  readFile : List Char → Option (List Nat)
  embedPng : List Char → Option Unit
  backendDownload : List Char → List Char → Option (List Nat)

/-- Embedding of `downloadPdfFromGcs` (server.js lines 636-678).
Returns the result together with the list of storage-backend download
calls actually performed (line 665); a rejected location performs none. -/
def downloadPdfFromGcs (env : Env) (loc : List Char) :
    Except GcsDownloadError (List Nat) × List (List Char × List Char) :=
  match chopLead schemeGs loc with
  | some _ =>
    match matchGsUri loc with
    | none => (Except.error GcsDownloadError.invalidGcsUriFormat, [])
    | some (b, p) =>
      if b = env.bucketName then
        match env.backendDownload b p with
        | some bytes => (Except.ok bytes, [(b, p)])
        | none => (Except.error GcsDownloadError.backendFailed, [(b, p)])
      else (Except.error GcsDownloadError.untrustedBucket, [])
  | none =>
    match chopLead schemePublic loc with
    | some _ =>
      match matchPublicUrl loc with
      | none => (Except.error GcsDownloadError.invalidPublicUrlFormat, [])
      | some (b, p) =>
        if b = env.bucketName then
          match env.backendDownload b p with
          | some bytes => (Except.ok bytes, [(b, p)])
          | none => (Except.error GcsDownloadError.backendFailed, [(b, p)])
        else (Except.error GcsDownloadError.invalidBucketInPublicUrl, [])
    | none => (Except.error GcsDownloadError.unsupportedFormat, [])

/-- The location string constructed by `storePdfInBucket`
(server.js lines 701-711): the public URL when `MAKE_PUBLIC` is set,
otherwise the `gs://` URI. -/
def formatLocation (bucket : List Char) (destinationFilename : List Char)
    (makePublic : Bool) : List Char :=
  if makePublic then schemePublic ++ bucket ++ '/' :: destinationFilename
  else schemeGs ++ bucket ++ '/' :: destinationFilename

/-- Embedding of `storePdfInBucket` (server.js lines 687-717): uploads
the bytes under `destinationFilename` in the configured bucket and
returns the resulting location string.  The upload itself is recorded by
callers as an effect; a save failure (line 712) is not needed by any
claim and is not modelled. -/
def storePdfInBucket (env : Env) (_pdfBytes : List Nat)
    (destinationFilename : List Char) : List Char :=
  formatLocation env.bucketName destinationFilename env.makePublic

/-- A typed (keyboard) signature payload: `{text, font}` as supplied in
`contractKeyboardSignature` / `withdrawalKeyboardSignature`. -/
structure KeyboardSig where
  text : List Char
  font : List Char
  deriving DecidableEq

/-- The fields object passed to `addSignatureToPage`: the four text
fields plus the optional `keyboardSignature` member that the `/api/sign`
handler spreads in (server.js lines 506-509, 527-530). -/
structure Fields where
  fullName : List Char
  email : List Char
  location : List Char
  date : List Char
  keyboardSignature : Option KeyboardSig
  deriving DecidableEq

/-- Modelled from the spec: the per-field labels of `pdfConfig.labels`
(`pdfConfig.mjs` is imported on server.js line 9 but is not among the
repository sources).  Spec section 3 describes it as an immutable map
from field name to `{label: string}` for the four fields
`fullName`, `email`, `location`, `date`. -/
structure Labels where
  fullName : List Char
  email : List Char
  location : List Char
  date : List Char
  deriving DecidableEq

/-- Modelled from the spec: one signature-block entry of `pdfConfig`
(`pdfConfig.mjs` is absent from the sources).  Spec section 3: a block
maps to `{page, x, y, width, height, label}`; `textBlockY` is the start
cursor used by `addSignatureToPage` (server.js line 81) and `label` the
title text of line 85. -/
structure SignatureConfig where
  page : Nat
  textBlockY : Int
  x : Int
  y : Int
  width : Int
  height : Int
  label : List Char
  deriving DecidableEq

/-- Modelled from the spec: the shape of the `pdfConfig` module object
(two signature blocks and the field labels), per spec section 3. -/
structure PdfConfig where
  contractSignature : SignatureConfig
  withdrawalSignature : SignatureConfig
  labels : Labels

/-- The fixed field order of server.js line 95 paired with label and
value: `fieldOrder = ['fullName', 'email', 'location', 'date']`, each
looked up in `pdfConfig.labels` and in the fields object. -/
def fieldPairs (labels : Labels) (fields : Fields) : List (List Char × List Char) :=
  [(labels.fullName, fields.fullName),
   (labels.email, fields.email),
   (labels.location, fields.location),
   (labels.date, fields.date)]

/-- The `fieldOrder.forEach` loop of server.js lines 96-118: for each
field draw the label at x=150 and the value at x=250 at the current
cursor, then advance the cursor down by the 25-unit spacing.  Returns
the drawn ops and the final cursor. -/
def renderFieldsAux : List (List Char × List Char) → Int → List DrawOp × Int
  | [], y => ([], y)
  | (lab, val) :: rest, y =>
    match renderFieldsAux rest (y - 25) with
    | (ops, yEnd) =>
      (DrawOp.text lab 150 y 12 helveticaFont ::
       DrawOp.text val 250 y 12 helveticaFont :: ops, yEnd)

/-- Font name checked on server.js line 123. -/
def dancingScriptName : List Char := "DancingScript-Regular".toList

/-- Decorative script font asset path (server.js line 124); the
`__dirname` segment of `path.join` is elided. -/
def dancingScriptPath : List Char := "public/fonts/DancingScript-Regular.ttf".toList

/-- Neutral fallback font asset path (server.js line 125). -/
def barlowPath : List Char := "public/fonts/BarlowSemiCondensed-Regular.ttf".toList

/-- Label text for the typed signature (server.js line 132). -/
def kbLabelText : List Char := "Unterschrift per Tastatur:".toList

/-- Label text for the drawn signature (server.js line 153). -/
def padLabelText : List Char := "Unterschrift Signaturfeld:".toList

/-- The keyboard-signature branch of `addSignatureToPage`
(server.js lines 121-149): active when `fields.keyboardSignature?.text`
is truthy (present with non-empty text).  The font file selected by the
`font` member is read with `fs.readFile` — a failed read throws — but
its bytes are unused because the `embedFont` call is commented out
(lines 128-130): the drawn text always uses the Helvetica font.
Draws the label line at the cursor, the signature text one 25-unit step
below at size 16, and advances the cursor by two steps. -/
def kbStep (env : Env) (fields : Fields) (y : Int) :
    Except CompError (List DrawOp × Int) :=
  match fields.keyboardSignature with
  | none => Except.ok ([], y)
  | some ks =>
    if ks.text = [] then Except.ok ([], y)
    else
      match env.readFile (if ks.font = dancingScriptName then dancingScriptPath else barlowPath) with
      | none =>
        Except.error (CompError.fontReadFailed
          (if ks.font = dancingScriptName then dancingScriptPath else barlowPath))
      | some _fontBytes =>
        Except.ok ([DrawOp.text kbLabelText 150 y 12 helveticaFont,
                    DrawOp.text ks.text 150 (y - 25) 16 helveticaFont], y - 50)

/-- `signatureData.split(',')[1]`: the segment of a string strictly
between its first comma and its second comma (or its end).  `none` when
the string has no comma, in which case `Buffer.from(undefined, 'base64')`
on server.js line 163 throws. -/
def splitCommaSecond : List Char → Option (List Char)
  | [] => none
  | c :: rest =>
    if c = ',' then some (rest.takeWhile (fun d => d ≠ ','))
    else splitCommaSecond rest

/-- The drawn-signature branch of `addSignatureToPage`
(server.js lines 151-172): active when `signatureData` is truthy
(present and non-empty).  Draws the label line at the cursor, then
base64-decodes the part after the data-URI comma and embeds it as a PNG
— either step failing throws — and draws the image inside the block's
fixed rectangle. -/
def drawnStep (env : Env) (cfg : SignatureConfig) (signatureData : Option (List Char))
    (y : Int) : Except CompError (List DrawOp) :=
  match signatureData with
  | none => Except.ok []
  | some sd =>
    if sd = [] then Except.ok []
    else
      match splitCommaSecond sd with
      | none => Except.error CompError.invalidSignatureData
      | some payload =>
        match env.embedPng payload with
        | none => Except.error CompError.pngEmbedFailed
        | some _ =>
          Except.ok [DrawOp.text padLabelText 150 y 12 helveticaFont,
                     DrawOp.image cfg.x cfg.y cfg.width cfg.height]

/-- Embedding of `addSignatureToPage` (server.js lines 78-176): draws
the block title at the start cursor, the four fields in fixed order, the
typed-signature segment when active, then the drawn-signature segment
when active; any thrown error aborts the whole call (its ops are
discarded, matching exception semantics on a document that is then
never persisted). -/
def addSignatureToPage (env : Env) (cfg : SignatureConfig) (labels : Labels)
    (signatureData : Option (List Char)) (fields : Fields) :
    Except CompError (List DrawOp) :=
  match renderFieldsAux (fieldPairs labels fields) (cfg.textBlockY - 25) with
  | (fieldOps, afterFieldsY) =>
    match kbStep env fields afterFieldsY with
    | Except.error e => Except.error e
    | Except.ok (kbOps, afterKbY) =>
      match drawnStep env cfg signatureData afterKbY with
      | Except.error e => Except.error e
      | Except.ok sigOps =>
        Except.ok (DrawOp.text cfg.label 150 cfg.textBlockY 12 helveticaFont ::
                   fieldOps ++ kbOps ++ sigOps)

/-- One record of the `pdfStore` map (server.js lines 315-322):
`pdfUrl` is optional because the handler defends against a loaded record
missing it (lines 484-487). -/
structure PdfData where
  pdfUrl : Option (List Char)
  signUrl : List Char
  webhookUrl : List Char
  vorname : Option (List Char)
  card_id : Option (List Char)
  email : Option (List Char)
  deriving DecidableEq

/-- The server's mutable state: the in-memory `pdfStore` object and the
contents of its persisted backing file `pdfStore.json`.  Both are
association lists keyed by pdf id; lookup takes the first match and
`/api/pdf-upload` prepends, giving JavaScript object-update semantics. -/
structure ServerState where
  pdfStore : List (List Char × PdfData)
  storeFile : List (List Char × PdfData)
  deriving DecidableEq

/-- `pdfStore[pdfId]` (server.js line 480): first-match lookup. -/
def lookupStore : List (List Char × PdfData) → List Char → Option PdfData
  | [], _ => none
  | (k, v) :: rest, pdfId => if k = pdfId then some v else lookupStore rest pdfId

/-- Embedding of `savePdfStore` (server.js lines 275-281): rewrites the
backing file with the whole in-memory map. -/
def savePdfStore (st : ServerState) : ServerState :=
  { st with storeFile := st.pdfStore }

/-- The fixed webhook URL of server.js line 245. -/
def webhookUrlConst : List Char :=
  "https://hook.eu2.make.com/shqssx7au2d7m7fu4hz86qiojoh65k40".toList

/-- Embedding of the storing part of `/api/pdf-upload`
(server.js lines 296-326): uploads the bytes, records the new document
in `pdfStore`, persists the store, and returns the new state with the
location and sign path.  Multipart parsing and the `webhookUrl` query
extraction are external concerns; their results arrive as arguments. -/
def handlePdfUpload (env : Env) (st : ServerState) (pdfId : List Char)
    (pdfBytes : List Nat) (vorname card_id email : Option (List Char)) :
    ServerState × List Char × List Char :=
  let destinationFilename := "uploads/uploaded_".toList ++ pdfId ++ ".pdf".toList
  let pdfUrl := storePdfInBucket env pdfBytes destinationFilename
  let signUrl := "/sign/".toList ++ pdfId
  let record : PdfData :=
    { pdfUrl := some pdfUrl, signUrl := signUrl, webhookUrl := webhookUrlConst,
      vorname := vorname, card_id := card_id, email := email }
  let st2 := savePdfStore { st with pdfStore := (pdfId, record) :: st.pdfStore }
  (st2, pdfUrl, signUrl)

/-- The request body of `/api/sign` (server.js lines 446-456).  String
members are `List Char` with `[]` covering both the empty string and an
absent member (both falsy); genuinely optional members are `Option`. -/
structure SignRequest where
  fullName : List Char
  location : List Char
  email : List Char
  signature : Option (List Char)
  withdrawalAccepted : Bool
  withdrawalSignature : Option (List Char)
  pdfId : Option (List Char)
  contractKeyboardSignature : Option KeyboardSig
  withdrawalKeyboardSignature : Option KeyboardSig
  deriving DecidableEq

/-- The two signature blocks of a request. -/
inductive Block where
  | contract
  | withdrawal
  deriving DecidableEq

/-- Error responses of the `/api/sign` handler.  `compositionError`
carries the block context of the wrapping messages on server.js lines
521 (`Fehler beim Einfuegen der Vertragsunterschrift`) and 543
(`Fehler beim Einfuegen der Widerrufsunterschrift`). -/
inductive SignError where
  | validationError
  | notFoundError
  | missingPdfUrl
  | downloadFailed (e : GcsDownloadError)
  | compositionError (b : Block) (e : CompError)
  deriving DecidableEq

/-- Success responses of `/api/sign`: the no-pdfId test echo
(server.js lines 463-478) or the signed location (line 588). -/
inductive SignResponse where
  | testEcho
  | signed (pdfUrl : List Char)
  deriving DecidableEq

/-- The webhook body sent after a successful sign
(server.js lines 569-582). -/
structure WebhookPayload where
  status : List Char
  pdfUrl : List Char
  signedByName : List Char
  signedByEmail : List Char
  signedByLocation : List Char
  vorname : Option (List Char)
  card_id : Option (List Char)
  email : Option (List Char)
  withdrawalAccepted : Bool
  deriving DecidableEq

deriving instance DecidableEq for Except

/-- Everything one `/api/sign` request produces: the server state after
the request, the draw operations that ended up in the produced document
per block, the uploads performed (destination and returned location),
the webhook notification, and the HTTP response. -/
structure SignResult where
  state : ServerState
  draws : List (Block × List DrawOp)
  uploads : List (List Char × List Char)
  webhook : Option WebhookPayload
  response : Except SignError SignResponse
  deriving DecidableEq

/-- A result that only answers, with no draws, uploads or webhook. -/
def noEffects (st : ServerState) (r : Except SignError SignResponse) : SignResult :=
  { state := st, draws := [], uploads := [], webhook := none, response := r }

/-- The fields object built for one block by `/api/sign` (server.js
lines 497-502 and 506-509 / 527-530): the base fields plus
`keyboardSignature` exactly when the block's keyboard signature has
truthy text. -/
def blockFields (env : Env) (r : SignRequest) (kbSig : Option KeyboardSig) : Fields :=
  { fullName := r.fullName, email := r.email, location := r.location,
    date := env.today,
    keyboardSignature :=
      match kbSig with
      | some ks => if ks.text = [] then none else some ks
      | none => none }

/-- The drawn-signature argument passed to `addSignatureToPage` for one
block (server.js lines 514 and 536): `null` when the block's keyboard
signature has truthy text, otherwise the block's drawn signature. -/
def blockSignatureData (kbSig : Option KeyboardSig) (drawn : Option (List Char)) :
    Option (List Char) :=
  match kbSig with
  | some ks => if ks.text = [] then drawn else none
  | none => drawn

/-- The withdrawal-block step of the `/api/sign` handler
(server.js lines 526-546): when `withdrawalAccepted`, compose the
withdrawal block (its error wrapped with the withdrawal context),
otherwise contribute nothing. -/
def withdrawalPart (env : Env) (cfg : PdfConfig) (r : SignRequest) :
    Except SignError (List (Block × List DrawOp)) :=
  if r.withdrawalAccepted then
    match addSignatureToPage env cfg.withdrawalSignature cfg.labels
        (blockSignatureData r.withdrawalKeyboardSignature r.withdrawalSignature)
        (blockFields env r r.withdrawalKeyboardSignature) with
    | Except.error e => Except.error (SignError.compositionError Block.withdrawal e)
    | Except.ok wOps => Except.ok [(Block.withdrawal, wOps)]
  else Except.ok []

/-- Embedding of the `/api/sign` handler (server.js lines 444-594):
validation, the test echo, store lookup, download of the original PDF,
composition of the contract block and (when accepted) the withdrawal
block, upload of the signed document, webhook dispatch, and response.
PDF loading/serialization by pdf-lib is abstracted: the document is
represented solely by the draw traces.  Note lines 557-559: the store
update with the signed location is commented out in the source, so the
state passes through untouched. -/
def signHandler (env : Env) (cfg : PdfConfig) (st : ServerState) (r : SignRequest) :
    SignResult :=
  if r.fullName = [] ∨ r.location = [] ∨ r.email = [] then
    noEffects st (Except.error SignError.validationError)
  else
    match r.pdfId with
    | none => noEffects st (Except.ok SignResponse.testEcho)
    | some pdfId =>
      match lookupStore st.pdfStore pdfId with
      | none => noEffects st (Except.error SignError.notFoundError)
      | some pdfData =>
        match pdfData.pdfUrl with
        | none => noEffects st (Except.error SignError.missingPdfUrl)
        | some url =>
          match (downloadPdfFromGcs env url).1 with
          | Except.error e => noEffects st (Except.error (SignError.downloadFailed e))
          | Except.ok _originalPdfBytes =>
            match addSignatureToPage env cfg.contractSignature cfg.labels
                (blockSignatureData r.contractKeyboardSignature r.signature)
                (blockFields env r r.contractKeyboardSignature) with
            | Except.error e =>
              noEffects st (Except.error (SignError.compositionError Block.contract e))
            | Except.ok contractOps =>
              match withdrawalPart env cfg r with
              | Except.error e => noEffects st (Except.error e)
              | Except.ok withdrawalDraws =>
                let destinationFilename :=
                  "signed/signed_".toList ++ pdfId ++ ".pdf".toList
                let signedPdfUrl := storePdfInBucket env [] destinationFilename
                { state := st,
                  draws := (Block.contract, contractOps) :: withdrawalDraws,
                  uploads := [(destinationFilename, signedPdfUrl)],
                  webhook := some
                    { status := "signed".toList, pdfUrl := signedPdfUrl,
                      signedByName := r.fullName, signedByEmail := r.email,
                      signedByLocation := r.location,
                      vorname := pdfData.vorname, card_id := pdfData.card_id,
                      email := pdfData.email,
                      withdrawalAccepted := r.withdrawalAccepted },
                  response := Except.ok (SignResponse.signed signedPdfUrl) }

/-- The withdrawal-signature validation of `/api/pdf-config`
(server.js lines 350-352): `withdrawalAccepted && !withdrawalSignature`
is rejected as a 400 validation error.  No analogous check exists in the
`/api/sign` handler. -/
def pdfConfigWithdrawalGuardRejects (withdrawalAccepted : Bool)
    (withdrawalSignature : Option (List Char)) : Bool :=
  withdrawalAccepted &&
    (match withdrawalSignature with
     | none => true
     | some s => s = [])

/-- Closed form of the eight field-drawing operations: four label/value
lines in the fixed order fullName, email, location, date, each line one
25-unit step below the previous (the first one step below the title at
`startY`). -/
def fieldLinesClosed (labels : Labels) (fields : Fields) (startY : Int) : List DrawOp :=
  [DrawOp.text labels.fullName 150 (startY - 25) 12 helveticaFont,
   DrawOp.text fields.fullName 250 (startY - 25) 12 helveticaFont,
   DrawOp.text labels.email 150 (startY - 25 - 25) 12 helveticaFont,
   DrawOp.text fields.email 250 (startY - 25 - 25) 12 helveticaFont,
   DrawOp.text labels.location 150 (startY - 25 - 25 - 25) 12 helveticaFont,
   DrawOp.text fields.location 250 (startY - 25 - 25 - 25) 12 helveticaFont,
   DrawOp.text labels.date 150 (startY - 25 - 25 - 25 - 25) 12 helveticaFont,
   DrawOp.text fields.date 250 (startY - 25 - 25 - 25 - 25) 12 helveticaFont]

/-- The cursor position after the title line and the four field lines. -/
def afterFields (startY : Int) : Int := startY - 25 - 25 - 25 - 25 - 25

/-- Closed form of the typed-signature segment: label line plus the
signature text at size 16 in Helvetica when active, nothing otherwise. -/
def kbSegOps (fields : Fields) (y : Int) : List DrawOp :=
  match fields.keyboardSignature with
  | some ks =>
    if ks.text = [] then []
    else [DrawOp.text kbLabelText 150 y 12 helveticaFont,
          DrawOp.text ks.text 150 (y - 25) 16 helveticaFont]
  | none => []

/-- Cursor position after the typed-signature segment. -/
def kbSegDrop (fields : Fields) (y : Int) : Int :=
  match fields.keyboardSignature with
  | some ks => if ks.text = [] then y else y - 50
  | none => y

/-- Closed form of the drawn-signature segment: label line plus the
image in the block's fixed rectangle when active, nothing otherwise. -/
def drawnSegOps (cfg : SignatureConfig) (signatureData : Option (List Char))
    (y : Int) : List DrawOp :=
  match signatureData with
  | some sd =>
    if sd = [] then []
    else [DrawOp.text padLabelText 150 y 12 helveticaFont,
          DrawOp.image cfg.x cfg.y cfg.width cfg.height]
  | none => []

/-- Closed form of a successful `addSignatureToPage` call: the title
line, the four field lines, then the (at most two) signature segments. -/
def composedOps (cfg : SignatureConfig) (labels : Labels)
    (signatureData : Option (List Char)) (fields : Fields) : List DrawOp :=
  DrawOp.text cfg.label 150 cfg.textBlockY 12 helveticaFont ::
  fieldLinesClosed labels fields cfg.textBlockY ++
  kbSegOps fields (afterFields cfg.textBlockY) ++
  drawnSegOps cfg signatureData (kbSegDrop fields (afterFields cfg.textBlockY))

/-- Whether the typed-signature branch is active:
`fields.keyboardSignature?.text` is truthy. -/
def kbActive (fields : Fields) : Bool :=
  match fields.keyboardSignature with
  | some ks => decide (ks.text ≠ [])
  | none => false

/-- Whether the drawn-signature branch is active: `signatureData` is truthy. -/
def drawnActive (signatureData : Option (List Char)) : Bool :=
  match signatureData with
  | some sd => decide (sd ≠ [])
  | none => false

/-- The typed-signature branch does not throw: either it is inactive or
the selected font asset file is readable. -/
def kbReadOk (env : Env) (fields : Fields) : Bool :=
  match fields.keyboardSignature with
  | some ks =>
    ks.text = [] ||
      (env.readFile (if ks.font = dancingScriptName then dancingScriptPath else barlowPath)).isSome
  | none => true

/-- The drawn-signature branch does not throw: either it is inactive or
its data URI has a comma and the payload embeds as a PNG. -/
def drawnDecodeOk (env : Env) (signatureData : Option (List Char)) : Bool :=
  match signatureData with
  | some sd =>
    sd = [] ||
      (match splitCommaSecond sd with
       | none => false
       | some payload => (env.embedPng payload).isSome)
  | none => true

/-- The font a draw operation uses, when it is a text operation. -/
def DrawOp.fontOf : DrawOp → Option Font
  | DrawOp.text _ _ _ _ f => some f
  | DrawOp.image _ _ _ _ => none

/-- A configured bucket name for concrete runs. -/
def bucketEx : List Char := "trusted-bucket".toList

/-- A fully working environment for concrete runs: both font assets
readable, images embeddable, backend downloads succeed, private bucket. -/
def envEx : Env :=
  { bucketName := bucketEx, makePublic := false, today := "01.01.2026".toList,
    readFile := fun _ => some [0], embedPng := fun _ => some (),
    backendDownload := fun _ _ => some [1] }

/-- `envEx` with every font asset file missing or unreadable. -/
def envNoFontEx : Env := { envEx with readFile := fun _ => none }

/-- `envEx` whose image embedding rejects every payload (undecodable
signature image data). -/
def envNoPngEx : Env := { envEx with embedPng := fun _ => none }

/-- Example field labels, standing in for `pdfConfig.labels`. -/
def labelsEx : Labels :=
  { fullName := "Name:".toList, email := "E-Mail:".toList,
    location := "Ort:".toList, date := "Datum:".toList }

/-- Example contract block configuration. -/
def contractCfgEx : SignatureConfig :=
  { page := 10, textBlockY := 400, x := 150, y := 200, width := 200, height := 60,
    label := "Vertrag".toList }

/-- Example withdrawal block configuration. -/
def withdrawalCfgEx : SignatureConfig :=
  { page := 9, textBlockY := 420, x := 150, y := 210, width := 200, height := 60,
    label := "Widerruf".toList }

/-- Example `pdfConfig`. -/
def cfgEx : PdfConfig :=
  { contractSignature := contractCfgEx, withdrawalSignature := withdrawalCfgEx,
    labels := labelsEx }

/-- Example document id. -/
def pdfIdEx : List Char := "abc123".toList

/-- Blob location of the stored original document for `pdfIdEx`. -/
def pdfUrlEx : List Char := "gs://trusted-bucket/uploads/uploaded_abc123.pdf".toList

/-- Stored record for `pdfIdEx`. -/
def pdfDataEx : PdfData :=
  { pdfUrl := some pdfUrlEx, signUrl := "/sign/abc123".toList,
    webhookUrl := webhookUrlConst, vorname := none, card_id := none, email := none }

/-- Server state holding exactly the record for `pdfIdEx`, persisted. -/
def stEx : ServerState :=
  { pdfStore := [(pdfIdEx, pdfDataEx)], storeFile := [(pdfIdEx, pdfDataEx)] }

/-- A well-formed drawn-signature data URI. -/
def drawnSigEx : List Char := "data:image/png;base64,iVBORw0KGgo".toList

/-- A drawn-signature payload with no comma: `split(',')[1]` is
undefined and `Buffer.from(undefined, 'base64')` throws. -/
def badDrawnSigEx : List Char := "garbage".toList

/-- A typed signature choosing the decorative script font. -/
def ksDecorativeEx : KeyboardSig :=
  { text := "Jane Doe".toList, font := dancingScriptName }

/-- A baseline valid `/api/sign` request for `pdfIdEx` with a drawn
contract signature and no withdrawal. -/
def reqBaseEx : SignRequest :=
  { fullName := "Jane Doe".toList, location := "Berlin".toList,
    email := "j@x.com".toList, signature := some drawnSigEx,
    withdrawalAccepted := false, withdrawalSignature := none,
    pdfId := some pdfIdEx, contractKeyboardSignature := none,
    withdrawalKeyboardSignature := none }

/-- Fields object with a typed decorative signature, as built by the
handler for `reqBaseEx` with `ksDecorativeEx`. -/
def fieldsTypedEx : Fields :=
  { fullName := "Jane Doe".toList, email := "j@x.com".toList,
    location := "Berlin".toList, date := "01.01.2026".toList,
    keyboardSignature := some ksDecorativeEx }

/-- `reqBaseEx` with a typed decorative contract signature and no drawn
signature. -/
def reqTypedEx : SignRequest :=
  { reqBaseEx with contractKeyboardSignature := some ksDecorativeEx, signature := none }

/-- `reqBaseEx` with both a typed decorative contract signature and a
drawn contract signature supplied simultaneously. -/
def reqBothEx : SignRequest :=
  { reqBaseEx with contractKeyboardSignature := some ksDecorativeEx }

/-- `reqBaseEx` with an undecodable drawn contract signature. -/
def reqBadDrawnEx : SignRequest :=
  { reqBaseEx with signature := some badDrawnSigEx }

/-- A request whose contract block carries a typed signature (so it
composes without touching the image decoder) and whose accepted
withdrawal block carries a drawn signature — used to exercise an
undecodable withdrawal payload. -/
def reqBadWithdrawalEx : SignRequest :=
  { reqBaseEx with
    contractKeyboardSignature := some ksDecorativeEx
    signature := none
    withdrawalAccepted := true
    withdrawalSignature := some drawnSigEx }

theorem renderFields_eval (labels : Labels) (fields : Fields) (startY : Int) :
    renderFieldsAux (fieldPairs labels fields) (startY - 25) =
      (fieldLinesClosed labels fields startY, afterFields startY) := rfl

/-- Characterization of `addSignatureToPage`: it succeeds exactly when
neither active signature branch throws, and then its draw trace is the
closed-form list `composedOps`. -/
theorem addSignatureToPage_ok_iff (env : Env) (cfg : SignatureConfig)
    (labels : Labels) (signatureData : Option (List Char)) (fields : Fields)
    (ops : List DrawOp) :
    addSignatureToPage env cfg labels signatureData fields = Except.ok ops ↔
      (kbReadOk env fields = true ∧ drawnDecodeOk env signatureData = true ∧
       ops = composedOps cfg labels signatureData fields) := by
  unfold addSignatureToPage
  rw [renderFields_eval]
  unfold kbStep drawnStep kbReadOk drawnDecodeOk composedOps kbSegOps kbSegDrop drawnSegOps
  rcases hk : fields.keyboardSignature with _ | ks <;>
    rcases hs : signatureData with _ | sd <;>
      simp only [hk, hs] <;>
        (try split_ifs) <;>
          (try simp_all) <;>
            (try (rcases hf :
                env.readFile (if ks.font = dancingScriptName then dancingScriptPath else barlowPath)
                with _ | bs <;> simp_all)) <;>
              (try (rcases hsp : splitCommaSecond sd with _ | payload <;> simp_all)) <;>
                (try (rcases hpg : env.embedPng payload with _ | u <;> simp_all)) <;>
                  (try exact eq_comm)

theorem signHandler_state (env : Env) (cfg : PdfConfig) (st : ServerState)
    (r : SignRequest) : (signHandler env cfg st r).state = st := by
  unfold signHandler
  repeat' split
  all_goals rfl

theorem chopLead_append (pat rest : List Char) : chopLead pat (pat ++ rest) = some rest := by
  induction pat with
  | nil => rfl
  | cons c pat ih => simp [chopLead, ih]

theorem splitAtFirstSlash_append (b p : List Char) (hb : '/' ∉ b) :
    splitAtFirstSlash (b ++ '/' :: p) = some (b, p) := by
  induction b with
  | nil => simp [splitAtFirstSlash]
  | cons c b ih =>
    have hc : c ≠ '/' := fun h => hb (h ▸ List.mem_cons_self c b)
    have hb2 : '/' ∉ b := fun h => hb (List.mem_cons_of_mem c h)
    simp [splitAtFirstSlash, ih hb2, hc, Ne.symm hc]

theorem composedOps_no_image (cfg : SignatureConfig) (labels : Labels)
    (fields : Fields) (x y w h : Int) :
    DrawOp.image x y w h ∉ composedOps cfg labels none fields := by
  unfold composedOps drawnSegOps kbSegOps fieldLinesClosed
  rcases fields.keyboardSignature with _ | ks <;> simp <;> split_ifs <;> simp

theorem composedOps_kb_text_mem (cfg : SignatureConfig) (labels : Labels)
    (signatureData : Option (List Char)) (fields : Fields) (ks : KeyboardSig)
    (hk : fields.keyboardSignature = some ks) (ht : ks.text ≠ []) :
    DrawOp.text ks.text 150 (afterFields cfg.textBlockY - 25) 16 helveticaFont ∈
      composedOps cfg labels signatureData fields := by
  unfold composedOps kbSegOps
  rw [hk]
  simp [ht]

theorem composedOps_kb_label_mem (cfg : SignatureConfig) (labels : Labels)
    (signatureData : Option (List Char)) (fields : Fields) (ks : KeyboardSig)
    (hk : fields.keyboardSignature = some ks) (ht : ks.text ≠ []) :
    DrawOp.text kbLabelText 150 (afterFields cfg.textBlockY) 12 helveticaFont ∈
      composedOps cfg labels signatureData fields := by
  unfold composedOps kbSegOps
  rw [hk]
  simp [ht]

theorem composedOps_fonts (cfg : SignatureConfig) (labels : Labels)
    (signatureData : Option (List Char)) (fields : Fields) :
    ∀ op ∈ composedOps cfg labels signatureData fields,
      DrawOp.fontOf op = some helveticaFont ∨ DrawOp.fontOf op = none := by
  unfold composedOps drawnSegOps kbSegOps fieldLinesClosed
  rcases fields.keyboardSignature with _ | ks <;>
    rcases signatureData with _ | sd <;>
      (try split_ifs) <;> simp [DrawOp.fontOf] <;>
        (try (rintro a h1 h2 <;> rcases h2 with rfl | rfl <;> simp [DrawOp.fontOf])) <;>
          aesop

theorem schemeGs_eq : schemeGs = ['g', 's', ':', '/', '/'] := rfl

theorem schemePublic_eq :
    schemePublic =
      ['h', 't', 't', 'p', 's', ':', '/', '/', 's', 't', 'o', 'r', 'a', 'g', 'e',
       '.', 'g', 'o', 'o', 'g', 'l', 'e', 'a', 'p', 'i', 's', '.', 'c', 'o', 'm', '/'] := rfl

theorem chopLead_gs_public_none (loc r : List Char)
    (h : chopLead schemeGs loc = some r) : chopLead schemePublic loc = none := by
  rw [schemeGs_eq] at h
  rw [schemePublic_eq]
  cases loc with
  | nil => simp [chopLead] at h
  | cons c rest =>
    simp only [chopLead] at h ⊢
    by_cases hc : ('g' : Char) = c
    · subst hc
      simp [show ('h' : Char) ≠ 'g' from by decide]
    · simp [hc] at h

theorem matchGsUri_chop (loc : List Char) (bp : List Char × List Char)
    (h : matchGsUri loc = some bp) : ∃ r, chopLead schemeGs loc = some r := by
  unfold matchGsUri at h
  rcases hc : chopLead schemeGs loc with _ | r
  · rw [hc] at h; cases h
  · exact ⟨r, rfl⟩

theorem matchPublicUrl_chop (loc : List Char) (bp : List Char × List Char)
    (h : matchPublicUrl loc = some bp) : ∃ r, chopLead schemePublic loc = some r := by
  unfold matchPublicUrl at h
  rcases hc : chopLead schemePublic loc with _ | r
  · rw [hc] at h; cases h
  · exact ⟨r, rfl⟩

/-- Claim C1: for every stored blob location whose parsed bucket differs
from the configured bucket, `downloadPdfFromGcs` fails with an
untrusted-bucket error and the storage backend's download call is never
invoked (its call trace is empty). -/
theorem downloadPdfFromGcs_untrusted_bucket_rejected (env : Env) (loc b p : List Char)
    (hparse : parseLocation loc = Except.ok (b, p)) (hb : b ≠ env.bucketName) :
    (∃ e, (downloadPdfFromGcs env loc).1 = Except.error e ∧ e.isUntrustedBucket = true) ∧
    (downloadPdfFromGcs env loc).2 = [] := by
  unfold parseLocation at hparse
  unfold downloadPdfFromGcs
  rcases h1 : chopLead schemeGs loc with _ | rest <;> rw [h1] at hparse
  · rcases h2 : chopLead schemePublic loc with _ | rest2 <;> rw [h2] at hparse
    · cases hparse
    · rcases h3 : matchPublicUrl loc with _ | bp <;> rw [h3] at hparse
      · cases hparse
      · rcases bp with ⟨b2, p2⟩
        injection hparse with h4
        injection h4 with h5 h6
        subst h5; subst h6
        simp [hb, GcsDownloadError.isUntrustedBucket]
  · rcases h3 : matchGsUri loc with _ | bp <;> rw [h3] at hparse
    · cases hparse
    · rcases bp with ⟨b2, p2⟩
      injection hparse with h4
      injection h4 with h5 h6
      subst h5; subst h6
      simp [hb, GcsDownloadError.isUntrustedBucket]

/-- Witness for C1 at a concrete crafted location naming a foreign bucket. -/
theorem downloadPdfFromGcs_untrusted_bucket_rejected_witness :
    parseLocation ("gs://evil/x.pdf".toList) =
      Except.ok ("evil".toList, "x.pdf".toList) ∧
    "evil".toList ≠ envEx.bucketName ∧
    ((∃ e, (downloadPdfFromGcs envEx ("gs://evil/x.pdf".toList)).1 = Except.error e ∧
        e.isUntrustedBucket = true) ∧
     (downloadPdfFromGcs envEx ("gs://evil/x.pdf".toList)).2 = []) :=
  ⟨by decide, by decide,
   downloadPdfFromGcs_untrusted_bucket_rejected envEx ("gs://evil/x.pdf".toList)
     ("evil".toList) ("x.pdf".toList) (by decide) (by decide)⟩

/-- Claim C5: for every bucket and path free of scheme-breaking
characters (bucket non-empty and slash-free, path non-empty and free of
line terminators), parsing the non-public location produced by the
format operation recovers exactly the original pair. -/
theorem parse_format_roundtrip (b p : List Char) (hb : b ≠ []) (hbs : '/' ∉ b)
    (hp : p ≠ []) (hpl : p.any isJsLineTerminator = false) :
    parseLocation (formatLocation b p false) = Except.ok (b, p) := by
  have hfmt : formatLocation b p false = schemeGs ++ (b ++ '/' :: p) := by
    simp [formatLocation]
  have hchop : chopLead schemeGs (schemeGs ++ (b ++ '/' :: p)) = some (b ++ '/' :: p) :=
    chopLead_append _ _
  have hmatch : matchGsUri (schemeGs ++ (b ++ '/' :: p)) = some (b, p) := by
    unfold matchGsUri
    rw [hchop]
    simp [splitAtFirstSlash_append b p hbs, hb, hp, hpl]
  rw [hfmt]
  unfold parseLocation
  rw [hchop, hmatch]

/-- Witness for C5 on a concrete bucket and a path containing a slash
and a space. -/
theorem parse_format_roundtrip_witness :
    ("my-bucket".toList ≠ ([] : List Char)) ∧ '/' ∉ "my-bucket".toList ∧
    ("a/b c.pdf".toList ≠ ([] : List Char)) ∧
    ("a/b c.pdf".toList.any isJsLineTerminator = false) ∧
    parseLocation (formatLocation ("my-bucket".toList) ("a/b c.pdf".toList) false) =
      Except.ok ("my-bucket".toList, "a/b c.pdf".toList) :=
  ⟨by decide, by decide, by decide, by decide,
   parse_format_roundtrip ("my-bucket".toList) ("a/b c.pdf".toList)
     (by decide) (by decide) (by decide) (by decide)⟩

/-- Claim C6: the parse operation accepts exactly the two supported
location schemes — a location matching neither regex is rejected with an
error, a parse success implies one of the two regexes matched, and a
regex match implies parse success with that result. -/
theorem parse_accepts_exactly_two_schemes (loc : List Char) :
    ((matchGsUri loc = none ∧ matchPublicUrl loc = none) →
      ∃ e, parseLocation loc = Except.error e) ∧
    (∀ bp, parseLocation loc = Except.ok bp →
      matchGsUri loc = some bp ∨ matchPublicUrl loc = some bp) ∧
    (∀ bp, (matchGsUri loc = some bp ∨ matchPublicUrl loc = some bp) →
      parseLocation loc = Except.ok bp) := by
  refine ⟨?_, ?_, ?_⟩
  · rintro ⟨hg, hpub⟩
    unfold parseLocation
    rcases h1 : chopLead schemeGs loc with _ | r
    · rcases h2 : chopLead schemePublic loc with _ | r2
      · exact ⟨_, rfl⟩
      · rw [hpub]; exact ⟨_, rfl⟩
    · rw [hg]; exact ⟨_, rfl⟩
  · intro bp h
    unfold parseLocation at h
    rcases h1 : chopLead schemeGs loc with _ | r <;> simp only [h1] at h
    · rcases h2 : chopLead schemePublic loc with _ | r2 <;> simp only [h2] at h
      · cases h
      · rcases h3 : matchPublicUrl loc with _ | bp2 <;> simp only [h3] at h
        · cases h
        · simp only [Except.ok.injEq] at h
          subst h
          exact Or.inr rfl
    · rcases h3 : matchGsUri loc with _ | bp2 <;> simp only [h3] at h
      · cases h
      · simp only [Except.ok.injEq] at h
        subst h
        exact Or.inl rfl
  · intro bp h
    rcases h with h | h
    · obtain ⟨r, hr⟩ := matchGsUri_chop loc bp h
      unfold parseLocation
      rw [hr, h]
    · obtain ⟨r, hr⟩ := matchPublicUrl_chop loc bp h
      unfold parseLocation
      rcases hg : chopLead schemeGs loc with _ | r2
      · rw [hr, h]
      · rw [chopLead_gs_public_none loc r2 hg] at hr
        cases hr

/-- Witness for C6: a location in neither scheme is rejected. -/
theorem parse_accepts_exactly_two_schemes_witness :
    (matchGsUri ("ftp://x/y".toList) = none ∧ matchPublicUrl ("ftp://x/y".toList) = none) ∧
    (∃ e, parseLocation ("ftp://x/y".toList) = Except.error e) :=
  ⟨by decide, (parse_accepts_exactly_two_schemes ("ftp://x/y".toList)).1 (by decide)⟩

theorem withdrawalPart_ok (env : Env) (cfg : PdfConfig) (r : SignRequest)
    (wDraws : List (Block × List DrawOp))
    (h : withdrawalPart env cfg r = Except.ok wDraws) :
    wDraws = [] ∨
    (r.withdrawalAccepted = true ∧ ∃ wOps,
      addSignatureToPage env cfg.withdrawalSignature cfg.labels
        (blockSignatureData r.withdrawalKeyboardSignature r.withdrawalSignature)
        (blockFields env r r.withdrawalKeyboardSignature) = Except.ok wOps ∧
      wDraws = [(Block.withdrawal, wOps)]) := by
  unfold withdrawalPart at h
  by_cases hacc : r.withdrawalAccepted = true
  · simp only [if_pos hacc] at h
    rcases hw : addSignatureToPage env cfg.withdrawalSignature cfg.labels
        (blockSignatureData r.withdrawalKeyboardSignature r.withdrawalSignature)
        (blockFields env r r.withdrawalKeyboardSignature) with e | wOps <;>
      simp only [hw] at h
    · cases h
    · simp only [Except.ok.injEq] at h
      exact Or.inr ⟨hacc, wOps, rfl, h.symm⟩
  · simp only [if_neg hacc] at h
    simp only [Except.ok.injEq] at h
    exact Or.inl h.symm

theorem signHandler_draws_mem (env : Env) (cfg : PdfConfig) (st : ServerState)
    (r : SignRequest) (b : Block) (ops : List DrawOp)
    (hmem : (b, ops) ∈ (signHandler env cfg st r).draws) :
    (b = Block.contract ∧
      addSignatureToPage env cfg.contractSignature cfg.labels
        (blockSignatureData r.contractKeyboardSignature r.signature)
        (blockFields env r r.contractKeyboardSignature) = Except.ok ops) ∨
    (b = Block.withdrawal ∧ r.withdrawalAccepted = true ∧
      addSignatureToPage env cfg.withdrawalSignature cfg.labels
        (blockSignatureData r.withdrawalKeyboardSignature r.withdrawalSignature)
        (blockFields env r r.withdrawalKeyboardSignature) = Except.ok ops) := by
  unfold signHandler at hmem
  by_cases hval : (r.fullName = [] ∨ r.location = [] ∨ r.email = [])
  · simp [if_pos hval, noEffects] at hmem
  · simp only [if_neg hval] at hmem
    rcases hpid : r.pdfId with _ | pdfId <;> simp only [hpid] at hmem
    · simp [noEffects] at hmem
    · rcases hlook : lookupStore st.pdfStore pdfId with _ | pdfData <;>
        simp only [hlook] at hmem
      · simp [noEffects] at hmem
      · rcases hurl : pdfData.pdfUrl with _ | url <;> simp only [hurl] at hmem
        · simp [noEffects] at hmem
        · rcases hdl : (downloadPdfFromGcs env url).1 with e | bytes <;>
            simp only [hdl] at hmem
          · simp [noEffects] at hmem
          · rcases hc : addSignatureToPage env cfg.contractSignature cfg.labels
                (blockSignatureData r.contractKeyboardSignature r.signature)
                (blockFields env r r.contractKeyboardSignature) with e | cOps <;>
              simp only [hc] at hmem
            · simp [noEffects] at hmem
            · rcases hw : withdrawalPart env cfg r with e | wDraws <;>
                simp only [hw] at hmem
              · simp [noEffects] at hmem
              · simp only [List.mem_cons] at hmem
                rcases hmem with heq | hmem2
                · rw [Prod.mk.injEq] at heq
                  obtain ⟨rfl, rfl⟩ := heq
                  exact Or.inl ⟨rfl, rfl⟩
                · rcases withdrawalPart_ok env cfg r wDraws hw with hnil | ⟨hacc, wOps, hwo, hl⟩
                  · rw [hnil] at hmem2
                    simp at hmem2
                  · rw [hl] at hmem2
                    simp only [List.mem_singleton] at hmem2
                    rw [Prod.mk.injEq] at hmem2
                    obtain ⟨rfl, rfl⟩ := hmem2
                    exact Or.inr ⟨rfl, hacc, hwo⟩

theorem addSignatureToPage_error_of_bad_drawn (env : Env) (cfg : SignatureConfig)
    (labels : Labels) (sd : List Char) (fields : Fields)
    (hdec : drawnDecodeOk env (some sd) = false) :
    ∃ e, addSignatureToPage env cfg labels (some sd) fields = Except.error e := by
  rcases hres : addSignatureToPage env cfg labels (some sd) fields with e | ops
  · exact ⟨e, rfl⟩
  · have hiff := (addSignatureToPage_ok_iff env cfg labels (some sd) fields ops).mp hres
    rw [hdec] at hiff
    exact absurd hiff.2.1 (by simp)

/-- Claim C2: for every `/api/sign` request in which a typed signature
with non-empty text is supplied for a block, the document composed for
that block contains the typed signature text and no drawn-signature
image operation — even when a drawn signature is supplied for the same
block — because the drawn payload passed to `addSignatureToPage` is
replaced by null: the typed variant takes precedence. -/
theorem sign_typed_takes_precedence (env : Env) (cfg : PdfConfig) (st : ServerState)
    (r : SignRequest) :
    (∀ ks ops, r.contractKeyboardSignature = some ks → ks.text ≠ [] →
      (Block.contract, ops) ∈ (signHandler env cfg st r).draws →
      (DrawOp.text ks.text 150 (afterFields cfg.contractSignature.textBlockY - 25) 16
          helveticaFont ∈ ops ∧
       ∀ x y w h, DrawOp.image x y w h ∉ ops)) ∧
    (∀ ks ops, r.withdrawalKeyboardSignature = some ks → ks.text ≠ [] →
      (Block.withdrawal, ops) ∈ (signHandler env cfg st r).draws →
      (DrawOp.text ks.text 150 (afterFields cfg.withdrawalSignature.textBlockY - 25) 16
          helveticaFont ∈ ops ∧
       ∀ x y w h, DrawOp.image x y w h ∉ ops)) := by
  constructor
  · intro ks ops hks ht hmem
    rcases signHandler_draws_mem env cfg st r Block.contract ops hmem with
      ⟨-, hok⟩ | ⟨hcontra, -⟩
    · have hbsd : blockSignatureData r.contractKeyboardSignature r.signature = none := by
        rw [hks]; simp [blockSignatureData, ht]
      have hf : (blockFields env r r.contractKeyboardSignature).keyboardSignature = some ks := by
        rw [hks]; simp [blockFields, ht]
      rw [hbsd] at hok
      obtain ⟨-, -, rfl⟩ :=
        (addSignatureToPage_ok_iff env cfg.contractSignature cfg.labels none
          (blockFields env r r.contractKeyboardSignature) ops).mp hok
      exact ⟨composedOps_kb_text_mem _ _ _ _ ks hf ht,
             fun x y w h => composedOps_no_image _ _ _ x y w h⟩
    · cases hcontra
  · intro ks ops hks ht hmem
    rcases signHandler_draws_mem env cfg st r Block.withdrawal ops hmem with
      ⟨hcontra, -⟩ | ⟨-, -, hok⟩
    · cases hcontra
    · have hbsd : blockSignatureData r.withdrawalKeyboardSignature r.withdrawalSignature
          = none := by
        rw [hks]; simp [blockSignatureData, ht]
      have hf : (blockFields env r r.withdrawalKeyboardSignature).keyboardSignature
          = some ks := by
        rw [hks]; simp [blockFields, ht]
      rw [hbsd] at hok
      obtain ⟨-, -, rfl⟩ :=
        (addSignatureToPage_ok_iff env cfg.withdrawalSignature cfg.labels none
          (blockFields env r r.withdrawalKeyboardSignature) ops).mp hok
      exact ⟨composedOps_kb_text_mem _ _ _ _ ks hf ht,
             fun x y w h => composedOps_no_image _ _ _ x y w h⟩

/-- Witness for C2: a concrete request supplying both a typed and a
drawn contract signature; the composed contract block carries the typed
text and no image. -/
theorem sign_typed_takes_precedence_witness :
    reqBothEx.contractKeyboardSignature = some ksDecorativeEx ∧
    ksDecorativeEx.text ≠ [] ∧
    reqBothEx.signature = some drawnSigEx ∧
    (Block.contract, composedOps contractCfgEx labelsEx none fieldsTypedEx) ∈
      (signHandler envEx cfgEx stEx reqBothEx).draws ∧
    (DrawOp.text ksDecorativeEx.text 150
        (afterFields cfgEx.contractSignature.textBlockY - 25) 16 helveticaFont ∈
      composedOps contractCfgEx labelsEx none fieldsTypedEx ∧
     ∀ x y w h, DrawOp.image x y w h ∉ composedOps contractCfgEx labelsEx none fieldsTypedEx) :=
  ⟨rfl, by decide, rfl, by decide,
   (sign_typed_takes_precedence envEx cfgEx stEx reqBothEx).1 ksDecorativeEx
     (composedOps contractCfgEx labelsEx none fieldsTypedEx) rfl (by decide) (by decide)⟩

/-- Claim C8: for every valid field set (at most one signature variant
active, the spec's per-block invariant), a successful block composition
draws exactly one title line, then exactly the four field lines in the
fixed order fullName, email, location, date — each line one 25-unit
spacing step below the previous — followed by zero or one signature
block; no other shape or order is possible. -/
theorem compose_block_shape (env : Env) (cfg : SignatureConfig) (labels : Labels)
    (signatureData : Option (List Char)) (fields : Fields) (ops : List DrawOp)
    (hone : kbActive fields = false ∨ drawnActive signatureData = false)
    (h : addSignatureToPage env cfg labels signatureData fields = Except.ok ops) :
    ∃ tail,
      ops = DrawOp.text cfg.label 150 cfg.textBlockY 12 helveticaFont ::
            fieldLinesClosed labels fields cfg.textBlockY ++ tail ∧
      (tail = [] ∨
       (∃ ks, fields.keyboardSignature = some ks ∧
          tail = [DrawOp.text kbLabelText 150 (afterFields cfg.textBlockY) 12 helveticaFont,
                  DrawOp.text ks.text 150 (afterFields cfg.textBlockY - 25) 16
                    helveticaFont]) ∨
       (∃ sd, signatureData = some sd ∧
          tail = [DrawOp.text padLabelText 150 (afterFields cfg.textBlockY) 12 helveticaFont,
                  DrawOp.image cfg.x cfg.y cfg.width cfg.height])) := by
  obtain ⟨-, -, rfl⟩ :=
    (addSignatureToPage_ok_iff env cfg labels signatureData fields ops).mp h
  refine ⟨kbSegOps fields (afterFields cfg.textBlockY) ++
      drawnSegOps cfg signatureData (kbSegDrop fields (afterFields cfg.textBlockY)),
    rfl, ?_⟩
  unfold kbActive drawnActive at hone
  unfold kbSegOps kbSegDrop drawnSegOps
  rcases hk : fields.keyboardSignature with _ | ks <;> simp only [hk] at hone ⊢ <;>
    rcases hs : signatureData with _ | sd <;> simp only [hs] at hone ⊢
  · left; rfl
  · by_cases hsd : sd = []
    · left; simp [hsd]
    · right; right; exact ⟨sd, rfl, by simp [hsd]⟩
  · by_cases hkt : ks.text = []
    · left; simp [hkt]
    · right; left; exact ⟨ks, rfl, by simp [hkt]⟩
  · rcases hone with hone | hone
    · have hkt : ks.text = [] := by simpa using hone
      by_cases hsd : sd = []
      · left; simp [hkt, hsd]
      · right; right; exact ⟨sd, rfl, by simp [hkt, hsd]⟩
    · have hsd : sd = [] := by simpa using hone
      by_cases hkt : ks.text = []
      · left; simp [hkt, hsd]
      · right; left; exact ⟨ks, rfl, by simp [hkt, hsd]⟩

/-- Witness for C8 on a concrete typed-signature composition. -/
theorem compose_block_shape_witness :
    (kbActive fieldsTypedEx = false ∨ drawnActive (none : Option (List Char)) = false) ∧
    addSignatureToPage envEx contractCfgEx labelsEx none fieldsTypedEx =
      Except.ok (composedOps contractCfgEx labelsEx none fieldsTypedEx) ∧
    ∃ tail,
      composedOps contractCfgEx labelsEx none fieldsTypedEx =
        DrawOp.text contractCfgEx.label 150 contractCfgEx.textBlockY 12 helveticaFont ::
          fieldLinesClosed labelsEx fieldsTypedEx contractCfgEx.textBlockY ++ tail ∧
      (tail = [] ∨
       (∃ ks, fieldsTypedEx.keyboardSignature = some ks ∧
          tail = [DrawOp.text kbLabelText 150 (afterFields contractCfgEx.textBlockY) 12
                    helveticaFont,
                  DrawOp.text ks.text 150 (afterFields contractCfgEx.textBlockY - 25) 16
                    helveticaFont]) ∨
       (∃ sd, (none : Option (List Char)) = some sd ∧
          tail = [DrawOp.text padLabelText 150 (afterFields contractCfgEx.textBlockY) 12
                    helveticaFont,
                  DrawOp.image contractCfgEx.x contractCfgEx.y contractCfgEx.width
                    contractCfgEx.height])) :=
  ⟨Or.inr (by decide), by decide,
   compose_block_shape envEx contractCfgEx labelsEx none fieldsTypedEx
     (composedOps contractCfgEx labelsEx none fieldsTypedEx)
     (Or.inr (by decide)) (by decide)⟩

/-- Counterexample to claim C9 as stated: in a composition whose typed
signature chooses the decorative script font — with that font's asset
file present and readable — every drawn text operation, including the
enlarged signature text itself, uses the Helvetica fallback font; the
decorative font is never used (the `embedFont` call is commented out in
the source, so `fontChoice` only selects which file is read). -/
theorem typed_font_choice_ignored_cex :
    fieldsTypedEx.keyboardSignature = some ksDecorativeEx ∧
    ksDecorativeEx.font = dancingScriptName ∧
    (envEx.readFile dancingScriptPath).isSome = true ∧
    addSignatureToPage envEx contractCfgEx labelsEx none fieldsTypedEx =
      Except.ok (composedOps contractCfgEx labelsEx none fieldsTypedEx) ∧
    DrawOp.text ksDecorativeEx.text 150 (afterFields contractCfgEx.textBlockY - 25) 16
        helveticaFont ∈ composedOps contractCfgEx labelsEx none fieldsTypedEx ∧
    (∀ op ∈ composedOps contractCfgEx labelsEx none fieldsTypedEx,
      DrawOp.fontOf op = some helveticaFont ∨ DrawOp.fontOf op = none) := by
  refine ⟨rfl, rfl, by decide, by decide, by decide, ?_⟩
  exact composedOps_fonts contractCfgEx labelsEx none fieldsTypedEx

/-- Claim C9 (amended): for every typed signature payload with non-empty
text, a successful composition renders the typed-signature label line
and then the signature text at the enlarged size 16 (the 12-unit body
size times 4/3), but always in the neutral Helvetica fallback font
regardless of the payload's font choice — the font choice only selects
which font asset file is read, and the read bytes are unused. -/
theorem typed_signature_rendered_fallback_font (env : Env) (cfg : SignatureConfig)
    (labels : Labels) (signatureData : Option (List Char)) (fields : Fields)
    (ks : KeyboardSig) (ops : List DrawOp)
    (hk : fields.keyboardSignature = some ks) (ht : ks.text ≠ [])
    (h : addSignatureToPage env cfg labels signatureData fields = Except.ok ops) :
    DrawOp.text kbLabelText 150 (afterFields cfg.textBlockY) 12 helveticaFont ∈ ops ∧
    DrawOp.text ks.text 150 (afterFields cfg.textBlockY - 25) 16 helveticaFont ∈ ops ∧
    (∀ op ∈ ops, DrawOp.fontOf op = some helveticaFont ∨ DrawOp.fontOf op = none) := by
  obtain ⟨-, -, rfl⟩ :=
    (addSignatureToPage_ok_iff env cfg labels signatureData fields ops).mp h
  exact ⟨composedOps_kb_label_mem _ _ _ _ ks hk ht,
         composedOps_kb_text_mem _ _ _ _ ks hk ht,
         composedOps_fonts _ _ _ _⟩

/-- Witness for the amended C9 at a concrete decorative-font request. -/
theorem typed_signature_rendered_fallback_font_witness :
    fieldsTypedEx.keyboardSignature = some ksDecorativeEx ∧
    ksDecorativeEx.text ≠ [] ∧
    (DrawOp.text kbLabelText 150 (afterFields contractCfgEx.textBlockY) 12 helveticaFont ∈
      composedOps contractCfgEx labelsEx none fieldsTypedEx ∧
     DrawOp.text ksDecorativeEx.text 150 (afterFields contractCfgEx.textBlockY - 25) 16
        helveticaFont ∈ composedOps contractCfgEx labelsEx none fieldsTypedEx ∧
     (∀ op ∈ composedOps contractCfgEx labelsEx none fieldsTypedEx,
        DrawOp.fontOf op = some helveticaFont ∨ DrawOp.fontOf op = none)) :=
  ⟨rfl, by decide,
   typed_signature_rendered_fallback_font envEx contractCfgEx labelsEx none fieldsTypedEx
     ksDecorativeEx (composedOps contractCfgEx labelsEx none fieldsTypedEx)
     rfl (by decide) (by decide)⟩

/-- Claim C3 (code-bug evidence): when the decorative font asset file is
missing or unreadable, a composition with a typed signature choosing it
does NOT succeed with the fallback font: the `fs.readFile` of the font
(whose bytes are unused, since the embedding step is commented out)
throws, composition aborts with a composition error, and the handler
reports it as a contract-block error with nothing uploaded. -/
theorem missing_decorative_font_aborts_composition :
    addSignatureToPage envNoFontEx contractCfgEx labelsEx none fieldsTypedEx =
      Except.error (CompError.fontReadFailed dancingScriptPath) ∧
    (signHandler envNoFontEx cfgEx stEx reqTypedEx).response =
      Except.error (SignError.compositionError Block.contract
        (CompError.fontReadFailed dancingScriptPath)) ∧
    (signHandler envNoFontEx cfgEx stEx reqTypedEx).uploads = [] := by decide

/-- Claim C4: for every `/api/sign` request that reaches composition and
whose active drawn signature payload cannot be decoded (its data URI has
no comma, or its payload does not embed as a PNG), the handler answers
with a composition error carrying the offending block's context —
contract for an undecodable contract payload, withdrawal for an
undecodable withdrawal payload — and nothing is drawn, uploaded, sent to
the webhook, or written to the store. -/
theorem undecodable_drawn_signature_aborts (env : Env) (cfg : PdfConfig)
    (st : ServerState) (r : SignRequest) (pdfId url : List Char)
    (pdfData : PdfData) (bytes : List Nat)
    (hname : r.fullName ≠ []) (hloc : r.location ≠ []) (hemail : r.email ≠ [])
    (hpid : r.pdfId = some pdfId)
    (hstore : lookupStore st.pdfStore pdfId = some pdfData)
    (hurl : pdfData.pdfUrl = some url)
    (hdl : (downloadPdfFromGcs env url).1 = Except.ok bytes) :
    (∀ sd, r.contractKeyboardSignature = none → r.signature = some sd → sd ≠ [] →
      (∀ payload, splitCommaSecond sd = some payload → env.embedPng payload = none) →
      (∃ e, (signHandler env cfg st r).response =
          Except.error (SignError.compositionError Block.contract e)) ∧
      (signHandler env cfg st r).uploads = [] ∧
      (signHandler env cfg st r).draws = [] ∧
      (signHandler env cfg st r).webhook = none ∧
      (signHandler env cfg st r).state = st) ∧
    (∀ sd cOps, r.withdrawalAccepted = true →
      r.withdrawalKeyboardSignature = none → r.withdrawalSignature = some sd → sd ≠ [] →
      (∀ payload, splitCommaSecond sd = some payload → env.embedPng payload = none) →
      addSignatureToPage env cfg.contractSignature cfg.labels
        (blockSignatureData r.contractKeyboardSignature r.signature)
        (blockFields env r r.contractKeyboardSignature) = Except.ok cOps →
      (∃ e, (signHandler env cfg st r).response =
          Except.error (SignError.compositionError Block.withdrawal e)) ∧
      (signHandler env cfg st r).uploads = [] ∧
      (signHandler env cfg st r).draws = [] ∧
      (signHandler env cfg st r).webhook = none ∧
      (signHandler env cfg st r).state = st) := by
  have hval : ¬(r.fullName = [] ∨ r.location = [] ∨ r.email = []) := by
    simp [hname, hloc, hemail]
  constructor
  · intro sd hckb hsig hsd hdec
    have hddo : drawnDecodeOk env (some sd) = false := by
      unfold drawnDecodeOk
      rcases hsp : splitCommaSecond sd with _ | payload
      · simp [hsd, hsp]
      · simp [hsd, hsp, hdec payload hsp]
    obtain ⟨e, he⟩ := addSignatureToPage_error_of_bad_drawn env cfg.contractSignature
        cfg.labels sd (blockFields env r r.contractKeyboardSignature) hddo
    have hbsd : blockSignatureData r.contractKeyboardSignature r.signature = some sd := by
      rw [hckb, hsig]
      rfl
    unfold signHandler
    simp only [if_neg hval, hpid, hstore, hurl, hdl, hbsd, he]
    exact ⟨⟨e, rfl⟩, rfl, rfl, rfl, rfl⟩
  · intro sd cOps hacc hwkb hwsig hsd hdec hcok
    have hddo : drawnDecodeOk env (some sd) = false := by
      unfold drawnDecodeOk
      rcases hsp : splitCommaSecond sd with _ | payload
      · simp [hsd, hsp]
      · simp [hsd, hsp, hdec payload hsp]
    obtain ⟨e, he⟩ := addSignatureToPage_error_of_bad_drawn env cfg.withdrawalSignature
        cfg.labels sd (blockFields env r r.withdrawalKeyboardSignature) hddo
    have hbsd : blockSignatureData r.withdrawalKeyboardSignature r.withdrawalSignature
        = some sd := by
      rw [hwkb, hwsig]
      rfl
    have hwp : withdrawalPart env cfg r =
        Except.error (SignError.compositionError Block.withdrawal e) := by
      unfold withdrawalPart
      rw [if_pos hacc]
      simp only [hbsd, he]
    unfold signHandler
    simp only [if_neg hval, hpid, hstore, hurl, hdl, hcok, hwp]
    exact ⟨⟨e, rfl⟩, rfl, rfl, rfl, rfl⟩

/-- Witness for C4: two concrete requests whose drawn signature payload
is rejected by the image embedder — one in the contract block, one in
the withdrawal block. -/
theorem undecodable_drawn_signature_aborts_witness :
    ((∃ e, (signHandler envNoPngEx cfgEx stEx reqBaseEx).response =
        Except.error (SignError.compositionError Block.contract e)) ∧
     (signHandler envNoPngEx cfgEx stEx reqBaseEx).uploads = [] ∧
     (signHandler envNoPngEx cfgEx stEx reqBaseEx).draws = [] ∧
     (signHandler envNoPngEx cfgEx stEx reqBaseEx).webhook = none ∧
     (signHandler envNoPngEx cfgEx stEx reqBaseEx).state = stEx) ∧
    ((∃ e, (signHandler envNoPngEx cfgEx stEx reqBadWithdrawalEx).response =
        Except.error (SignError.compositionError Block.withdrawal e)) ∧
     (signHandler envNoPngEx cfgEx stEx reqBadWithdrawalEx).uploads = [] ∧
     (signHandler envNoPngEx cfgEx stEx reqBadWithdrawalEx).draws = [] ∧
     (signHandler envNoPngEx cfgEx stEx reqBadWithdrawalEx).webhook = none ∧
     (signHandler envNoPngEx cfgEx stEx reqBadWithdrawalEx).state = stEx) :=
  ⟨(undecodable_drawn_signature_aborts envNoPngEx cfgEx stEx reqBaseEx pdfIdEx
      pdfUrlEx pdfDataEx [1] (by decide) (by decide) (by decide) rfl (by decide) rfl
      (by decide)).1
      drawnSigEx rfl rfl (by decide) (fun _ _ => rfl),
   (undecodable_drawn_signature_aborts envNoPngEx cfgEx stEx reqBadWithdrawalEx pdfIdEx
      pdfUrlEx pdfDataEx [1] (by decide) (by decide) (by decide) rfl (by decide) rfl
      (by decide)).2
      drawnSigEx (composedOps contractCfgEx labelsEx none fieldsTypedEx) rfl rfl rfl
      (by decide) (fun _ _ => rfl) (by decide)⟩

/-- Claim C7 (code-bug evidence): a valid `/api/sign` request with
`withdrawalAccepted: true` and neither a drawn nor a typed withdrawal
signature is NOT rejected by validation: both blocks are composed (the
withdrawal block is rendered with no signature at all), the signed
document is uploaded, and the handler answers with success.  The
analogous guard exists only in `/api/pdf-config`, which rejects this
very combination. -/
theorem sign_accepts_missing_withdrawal_signature :
    pdfConfigWithdrawalGuardRejects true none = true ∧
    (signHandler envEx cfgEx stEx { reqBaseEx with withdrawalAccepted := true }).response =
      Except.ok (SignResponse.signed
        ("gs://trusted-bucket/signed/signed_abc123.pdf".toList)) ∧
    (signHandler envEx cfgEx stEx
        { reqBaseEx with withdrawalAccepted := true }).uploads ≠ [] ∧
    ((signHandler envEx cfgEx stEx
        { reqBaseEx with withdrawalAccepted := true }).draws.map Prod.fst) =
      [Block.contract, Block.withdrawal] := by decide

/-- Claim C10: every successful `/api/sign` request leaves the in-memory
document store and its persisted backing file completely unchanged; the
newly computed signed-blob location is returned in the response and sent
to the webhook, but never written into the store. -/
theorem sign_success_leaves_store_unchanged (env : Env) (cfg : PdfConfig)
    (st : ServerState) (r : SignRequest) (loc : List Char)
    (h : (signHandler env cfg st r).response = Except.ok (SignResponse.signed loc)) :
    (signHandler env cfg st r).state = st ∧
    (signHandler env cfg st r).state.pdfStore = st.pdfStore ∧
    (signHandler env cfg st r).state.storeFile = st.storeFile ∧
    (∃ dest, (signHandler env cfg st r).uploads = [(dest, loc)]) ∧
    (∃ w, (signHandler env cfg st r).webhook = some w ∧ w.pdfUrl = loc) := by
  refine ⟨signHandler_state env cfg st r,
    by rw [signHandler_state], by rw [signHandler_state], ?_⟩
  unfold signHandler at h ⊢
  by_cases hval : (r.fullName = [] ∨ r.location = [] ∨ r.email = [])
  · simp [if_pos hval, noEffects] at h
  · simp only [if_neg hval] at h ⊢
    rcases hpid : r.pdfId with _ | pdfId <;> simp only [hpid] at h ⊢
    · simp [noEffects] at h
    · rcases hlook : lookupStore st.pdfStore pdfId with _ | pdfData <;>
        simp only [hlook] at h ⊢
      · simp [noEffects] at h
      · rcases hurl : pdfData.pdfUrl with _ | url <;> simp only [hurl] at h ⊢
        · simp [noEffects] at h
        · rcases hdl : (downloadPdfFromGcs env url).1 with e | bytes <;>
            simp only [hdl] at h ⊢
          · simp [noEffects] at h
          · rcases hc : addSignatureToPage env cfg.contractSignature cfg.labels
                (blockSignatureData r.contractKeyboardSignature r.signature)
                (blockFields env r r.contractKeyboardSignature) with e | cOps <;>
              simp only [hc] at h ⊢
            · simp [noEffects] at h
            · rcases hw : withdrawalPart env cfg r with e | wDraws <;>
                simp only [hw] at h ⊢
              · simp [noEffects] at h
              · simp only [Except.ok.injEq, SignResponse.signed.injEq] at h
                subst h
                exact ⟨⟨_, rfl⟩, ⟨_, rfl, rfl⟩⟩

/-- Witness for C10 on a concrete successful signing run. -/
theorem sign_success_leaves_store_unchanged_witness :
    (signHandler envEx cfgEx stEx reqBaseEx).response =
      Except.ok (SignResponse.signed
        ("gs://trusted-bucket/signed/signed_abc123.pdf".toList)) ∧
    ((signHandler envEx cfgEx stEx reqBaseEx).state = stEx ∧
     (signHandler envEx cfgEx stEx reqBaseEx).state.pdfStore = stEx.pdfStore ∧
     (signHandler envEx cfgEx stEx reqBaseEx).state.storeFile = stEx.storeFile ∧
     (∃ dest, (signHandler envEx cfgEx stEx reqBaseEx).uploads =
        [(dest, "gs://trusted-bucket/signed/signed_abc123.pdf".toList)]) ∧
     (∃ w, (signHandler envEx cfgEx stEx reqBaseEx).webhook = some w ∧
        w.pdfUrl = "gs://trusted-bucket/signed/signed_abc123.pdf".toList)) :=
  ⟨by decide,
   sign_success_leaves_store_unchanged envEx cfgEx stEx reqBaseEx
     ("gs://trusted-bucket/signed/signed_abc123.pdf".toList) (by decide)⟩
